import Mathlib

/-!
Shallow embedding of the order-fulfillment core of the go-ecommerce-microservices
repository: the cart store (cart service `addToCart`/`getCart`/`clearCart` and the
combined server's identical handlers), the order ledger (order service
`createOrder`/`updatePaymentStatus`), the payment processor (payment service
`processPayment`/`refundPayment`), the combined single-binary server's
`createOrder` handler, and the frontend's `handleCheckout` flow that drives the
microservices.

Modelling conventions:
  - SQL tables become Lean lists of row structures; `SERIAL` ids become explicit
    next-id counters.
  - Go `float64` / SQL `DECIMAL(10,2)` money becomes `Rat` (exact arithmetic).
  - A SQL transaction (`db.Begin` ... `tx.Commit` with deferred rollback) is
    modelled by staging the writes and returning the original state when any
    staged write fails: intermediate states inside a transaction are not
    durably readable, but each standalone `db.Exec` is its own autocommitted
    write, so sequences of standalone Execs are modelled as a list of durable
    states.
  - Nondeterminism (the simulated gateway's `rand.Float32() < 0.9` approval and
    the generated transaction id) is passed in as explicit parameters.
  - Fallible inserts are modelled by explicit failure oracles (`Bool` /
    `Nat → Bool` parameters selecting which insert fails).
-/

/-! ## Cart store (cart service / combined server, table `cart_items`) -/

structure CartItem where
  userId : Nat
  productId : Nat
  quantity : Int
  price : Rat
  name : String
  imageURL : String
deriving DecidableEq, Repr

/-- The (user_id, product_id) key used by `UNIQUE(user_id, product_id)` and by
the `ON CONFLICT` clause of `addToCart`. -/
def cartLineKey (userId productId : Nat) (l : CartItem) : Bool :=
  l.userId == userId && l.productId == productId

/-- Handler `addToCart`: `INSERT ... ON CONFLICT (user_id, product_id)
DO UPDATE SET quantity = cart_items.quantity + $3`.  On conflict only the
quantity column is touched; otherwise a fresh row is inserted with the
request's fields and the path's user id. -/
def addToCart (db : List CartItem) (userId : Nat) (item : CartItem) : List CartItem :=
  if db.any (cartLineKey userId item.productId) then
    db.map (fun l =>
      if cartLineKey userId item.productId l then
        { l with quantity := l.quantity + item.quantity }
      else l)
  else
    db ++ [{ item with userId := userId }]

/-- The rows of one user's cart (`SELECT ... FROM cart_items WHERE user_id = $1`). -/
def userCart (db : List CartItem) (userId : Nat) : List CartItem :=
  db.filter (fun l => l.userId == userId)

/-- Running total `cart.TotalItems += item.Quantity` of `getCart`. -/
def cartTotalItems (items : List CartItem) : Int :=
  items.foldl (fun acc l => acc + l.quantity) 0

/-- Running total `cart.TotalPrice += item.Price * float64(item.Quantity)` of `getCart`. -/
def cartTotalPrice (items : List CartItem) : Rat :=
  items.foldl (fun acc l => acc + l.price * (l.quantity : Rat)) 0

/-- Handler `clearCart`: `DELETE FROM cart_items WHERE user_id = $1`. -/
def clearCart (db : List CartItem) (userId : Nat) : List CartItem :=
  db.filter (fun l => l.userId != userId)

/-! ## Order ledger (order service, tables `orders` and `order_items`) -/

structure OrderItemReq where
  productId : Nat
  name : String
  quantity : Int
  price : Rat
deriving DecidableEq, Repr

/-- The decoded JSON body of a create-order request (`Order` in Go: the client
supplies `user_id`, `total_amount`, `shipping_address`, `payment_method`,
`items`). -/
structure OrderReq where
  userId : Nat
  totalAmount : Rat
  shippingAddr : String
  paymentMethod : String
  items : List OrderItemReq
deriving DecidableEq, Repr

structure OrderRow where
  id : Nat
  userId : Nat
  status : String
  totalAmount : Rat
  shippingAddr : String
  paymentMethod : String
  paymentStatus : String
deriving DecidableEq, Repr

structure OrderItemRow where
  id : Nat
  orderId : Nat
  productId : Nat
  name : String
  quantity : Int
  price : Rat
deriving DecidableEq, Repr

structure OrdersDB where
  orders : List OrderRow
  orderItems : List OrderItemRow
  nextOrderId : Nat
  nextItemId : Nat
deriving DecidableEq, Repr

/-- Outcome of an HTTP handler: a successful JSON response or an
`http.Error` with its message. -/
inductive HandlerResult (α : Type) where
  | ok (value : α)
  | httpError (msg : String)
deriving DecidableEq, Repr

/-- The `for ... tx.Exec(INSERT INTO order_items ...)` loop inside the
create-order transaction: stages one row per request item, aborting (and hence
rolling the whole transaction back) at the first failing insert.  `idx` is the
position in the request's item list used by the failure oracle. -/
def insertOrderItemsTx (orderId nextItemId : Nat) (items : List OrderItemReq)
    (itemInsertFails : Nat → Bool) (idx : Nat) : Option (List OrderItemRow) :=
  match items with
  | [] => some []
  | item :: rest =>
    if itemInsertFails idx then none
    else
      match insertOrderItemsTx orderId (nextItemId + 1) rest itemInsertFails (idx + 1) with
      | none => none
      | some rows =>
        some ({ id := nextItemId, orderId := orderId, productId := item.productId,
                name := item.name, quantity := item.quantity, price := item.price } :: rows)

/-- Handler `createOrder` of the order service: one transaction inserting the
header (`status`/`payment_status` hard-coded to pending/pending,
`total_amount` taken from the request body) and all items; commit only if every
insert succeeded, otherwise the deferred rollback leaves the database
unchanged.  There is no validation of the item list. -/
def createOrderSvc (db : OrdersDB) (req : OrderReq) (headerInsertFails : Bool)
    (itemInsertFails : Nat → Bool) : OrdersDB × HandlerResult OrderRow :=
  if headerInsertFails then (db, .httpError "Failed to create order")
  else
    let oid := db.nextOrderId
    let header : OrderRow :=
      { id := oid, userId := req.userId, status := "pending",
        totalAmount := req.totalAmount, shippingAddr := req.shippingAddr,
        paymentMethod := req.paymentMethod, paymentStatus := "pending" }
    match insertOrderItemsTx oid db.nextItemId req.items itemInsertFails 0 with
    | none => (db, .httpError "Failed to create order items")
    | some rows =>
      ({ orders := db.orders ++ [header],
         orderItems := db.orderItems ++ rows,
         nextOrderId := oid + 1,
         nextItemId := db.nextItemId + rows.length }, .ok header)

/-- The `validStatuses` map of `updatePaymentStatus`. -/
def validPaymentStatuses : List String :=
  ["pending", "completed", "failed", "refunded"]

/-- SQL `UPDATE orders SET payment_status = $1 ... WHERE id = $2`. -/
def setOrderPaymentStatus (db : OrdersDB) (orderId : Nat) (ps : String) : OrdersDB :=
  { db with orders := db.orders.map (fun o =>
      if o.id == orderId then { o with paymentStatus := ps } else o) }

/-- SQL `UPDATE orders SET status = $1 ... WHERE id = $2`. -/
def setOrderStatus (db : OrdersDB) (orderId : Nat) (s : String) : OrdersDB :=
  { db with orders := db.orders.map (fun o =>
      if o.id == orderId then { o with status := s } else o) }

/-- Handler `updatePaymentStatus` of the order service.  It validates the
status value, then issues one `db.Exec` setting `payment_status`, and — only
when the new value is "completed" — a second, separate `db.Exec` setting
`status = 'confirmed'`.  Each `db.Exec` is its own autocommitted write, so the
returned list is the sequence of durably readable database states, in order. -/
def updatePaymentStatus (db : OrdersDB) (orderId : Nat) (ps : String) :
    HandlerResult (List OrdersDB) :=
  if !(validPaymentStatuses.contains ps) then .httpError "Invalid payment status"
  else
    let db1 := setOrderPaymentStatus db orderId ps
    if ps == "completed" then .ok [db1, setOrderStatus db1 orderId "confirmed"]
    else .ok [db1]

/-- The final durable state after `updatePaymentStatus` (the database after the
handler returns). -/
def updatePaymentStatusRun (db : OrdersDB) (orderId : Nat) (ps : String) : OrdersDB :=
  match updatePaymentStatus db orderId ps with
  | .ok states => states.getLastD db
  | .httpError _ => db

/-- SQL `SELECT ... FROM orders WHERE id = $1`. -/
def findOrder (db : OrdersDB) (orderId : Nat) : Option OrderRow :=
  db.orders.find? (fun o => o.id == orderId)

/-- SQL `SELECT ... FROM order_items WHERE order_id = $1`. -/
def orderItemsOf (db : OrdersDB) (orderId : Nat) : List OrderItemRow :=
  db.orderItems.filter (fun it => it.orderId == orderId)

/-! ## Payment processor (payment service, table `payments`) -/

structure PaymentRow where
  id : Nat
  orderId : Nat
  userId : Nat
  amount : Rat
  currency : String
  method : String
  status : String
  transactionId : String
  paymentGateway : String
  cardLast4 : String
  errorMessage : String
deriving DecidableEq, Repr

structure PaymentsDB where
  payments : List PaymentRow
  nextPaymentId : Nat
deriving DecidableEq, Repr

/-- The decoded JSON body of a charge request (`PaymentRequest` in Go). -/
structure PaymentRequest where
  orderId : Nat
  userId : Nat
  amount : Rat
  currency : String
  method : String
  cardNumber : Option String
deriving DecidableEq, Repr

/-- Result of one `processPayment` call: the new payments table, the JSON
response row, and the `payment_status` value PATCHed to the order service by
`updateOrderPaymentStatus`. -/
structure ChargeOutcome where
  db : PaymentsDB
  payment : PaymentRow
  orderPatch : String
deriving DecidableEq, Repr

/-- Handler `processPayment` of the payment service.  No validation of the
amount and no lookup of existing payments for the order: it defaults the
currency, keeps the card's last 4 digits, draws the gateway outcome
(`rand.Float32() < 0.9`, passed in as `gatewayApproves`), inserts one new
payments row, and pushes the resulting status to the order service. -/
def processPayment (db : PaymentsDB) (req : PaymentRequest) (transactionId : String)
    (gatewayApproves : Bool) : ChargeOutcome :=
  let currency := if req.currency == "" then "USD" else req.currency
  let cardLast4 :=
    match req.cardNumber with
    | some n => if n.length ≥ 4 then n.drop (n.length - 4) else ""
    | none => ""
  let status := if gatewayApproves then "completed" else "failed"
  let errorMessage := if gatewayApproves then "" else "Payment declined by issuer"
  let row : PaymentRow :=
    { id := db.nextPaymentId, orderId := req.orderId, userId := req.userId,
      amount := req.amount, currency := currency, method := req.method,
      status := status, transactionId := transactionId,
      paymentGateway := "stripe_simulator", cardLast4 := cardLast4,
      errorMessage := errorMessage }
  { db := { payments := db.payments ++ [row], nextPaymentId := db.nextPaymentId + 1 },
    payment := row, orderPatch := status }

/-- SQL `UPDATE payments SET status = $2 WHERE id = $1` (as issued by refund). -/
def setPaymentStatusRow (db : PaymentsDB) (paymentId : Nat) (s : String) : PaymentsDB :=
  { db with payments := db.payments.map (fun p =>
      if p.id == paymentId then { p with status := s } else p) }

/-- A sequence of charge attempts: each attempt is a request, a generated
transaction id and the gateway's approval draw. -/
def runCharges (db : PaymentsDB) (attempts : List (PaymentRequest × String × Bool)) :
    PaymentsDB :=
  attempts.foldl (fun d a => (processPayment d a.1 a.2.1 a.2.2).db) db

/-- Number of rows with status "completed" for one order
(the quantity bounded by the at-most-one-active-payment invariant). -/
def completedPaymentCount (db : PaymentsDB) (orderId : Nat) : Nat :=
  (db.payments.filter (fun p => p.orderId == orderId && p.status == "completed")).length

/-- Combined state touched by the refund flow: the payment service's table and
the order service's table (reached through the `updateOrderPaymentStatus`
PATCH). -/
structure RefundResult where
  payments : PaymentsDB
  orders : OrdersDB
  response : HandlerResult String
deriving DecidableEq, Repr

/-- Handler `refundPayment` of the payment service: look the payment up
(404 if absent), reject with a 400 and no writes unless its status is
"completed", otherwise set it to "refunded" and PATCH the order's
payment_status to "refunded". -/
def refundPayment (pdb : PaymentsDB) (odb : OrdersDB) (paymentId : Nat) : RefundResult :=
  match pdb.payments.find? (fun p => p.id == paymentId) with
  | none => { payments := pdb, orders := odb, response := .httpError "Payment not found" }
  | some p =>
    if p.status != "completed" then
      { payments := pdb, orders := odb,
        response := .httpError "Only completed payments can be refunded" }
    else
      { payments := setPaymentStatusRow pdb paymentId "refunded",
        orders := updatePaymentStatusRun odb p.orderId "refunded",
        response := .ok "Payment refunded successfully" }

/-! ## Checkout flows -/

/-- Cross-store calls observable during a checkout, in program order. -/
inductive Event where
  | orderCreated (orderId : Nat) (totalAmount : Rat)
  | charged (orderId : Nat) (amount : Rat) (status : String)
  | paymentStatusPatched (orderId : Nat) (status : String)
  | cartCleared (userId : Nat)
deriving DecidableEq, Repr

def Event.isCharge : Event → Bool
  | charged _ _ _ => true
  | _ => false

def Event.isCartClear : Event → Bool
  | cartCleared _ => true
  | _ => false

/-- The three stores as seen by a checkout. -/
structure World where
  carts : List CartItem
  orders : OrdersDB
  payments : PaymentsDB
deriving DecidableEq, Repr

structure CheckoutResult where
  world : World
  events : List Event
deriving DecidableEq, Repr

/-- The order request built by the frontend's `handleCheckout`: `total_amount`
is `cart.total_price` as returned by `getCart`, and the items echo the fetched
cart lines. -/
def checkoutOrderReq (userId : Nat) (items : List CartItem) (shippingAddress : String) :
    OrderReq :=
  { userId := userId, totalAmount := cartTotalPrice items,
    shippingAddr := shippingAddress, paymentMethod := "card",
    items := items.map (fun l =>
      { productId := l.productId, name := l.name, quantity := l.quantity,
        price := l.price }) }

/-- The frontend's `handleCheckout` driving the microservices: fetch the cart,
POST /orders (order service `createOrder`; abort on error), POST /payments with
`amount: cart.total_price` (payment service `processPayment`, which PATCHes the
order's payment status), and DELETE /cart/{userId} exactly when the returned
payment has status "completed". -/
def handleCheckout (w : World) (userId : Nat) (shippingAddress cardNumber transactionId : String)
    (gatewayApproves headerInsertFails : Bool) (itemInsertFails : Nat → Bool) :
    CheckoutResult :=
  let items := userCart w.carts userId
  let req := checkoutOrderReq userId items shippingAddress
  match createOrderSvc w.orders req headerInsertFails itemInsertFails with
  | (_, .httpError _) => { world := w, events := [] }
  | (odb, .ok order) =>
    let preq : PaymentRequest :=
      { orderId := order.id, userId := userId, amount := cartTotalPrice items,
        currency := "USD", method := "card", cardNumber := some cardNumber }
    let chg := processPayment w.payments preq transactionId gatewayApproves
    let odb2 := updatePaymentStatusRun odb order.id chg.orderPatch
    let evs := [Event.orderCreated order.id order.totalAmount,
                Event.charged order.id chg.payment.amount chg.payment.status,
                Event.paymentStatusPatched order.id chg.orderPatch]
    if chg.payment.status == "completed" then
      { world := { carts := clearCart w.carts userId, orders := odb2, payments := chg.db },
        events := evs ++ [Event.cartCleared userId] }
    else
      { world := { carts := w.carts, orders := odb2, payments := chg.db },
        events := evs }

/-- Result of the combined single-binary server's `createOrder` handler, which
owns both the cart and order tables. -/
structure CombinedResult where
  carts : List CartItem
  orders : OrdersDB
  response : HandlerResult OrderRow
  events : List Event
deriving DecidableEq, Repr

/-- Handler `createOrder` of the combined single-binary server: one transaction
inserting the header as pending/pending (with the client-supplied
`total_amount`), inserting all items, and deleting the customer's cart rows —
then, after commit, mutating only the response object to
status "confirmed" / payment_status "completed".  No payment call is made
anywhere in this handler. -/
def createOrderCombined (carts : List CartItem) (odb : OrdersDB) (req : OrderReq)
    (headerInsertFails : Bool) (itemInsertFails : Nat → Bool) : CombinedResult :=
  if headerInsertFails then
    { carts := carts, orders := odb, response := .httpError "Failed to create order",
      events := [] }
  else
    let oid := odb.nextOrderId
    let header : OrderRow :=
      { id := oid, userId := req.userId, status := "pending",
        totalAmount := req.totalAmount, shippingAddr := req.shippingAddr,
        paymentMethod := req.paymentMethod, paymentStatus := "pending" }
    match insertOrderItemsTx oid odb.nextItemId req.items itemInsertFails 0 with
    | none =>
      { carts := carts, orders := odb,
        response := .httpError "Failed to create order items", events := [] }
    | some rows =>
      { carts := clearCart carts req.userId,
        orders := { orders := odb.orders ++ [header],
                    orderItems := odb.orderItems ++ rows,
                    nextOrderId := oid + 1,
                    nextItemId := odb.nextItemId + rows.length },
        response := .ok { header with status := "confirmed", paymentStatus := "completed" },
        events := [Event.orderCreated oid req.totalAmount, Event.cartCleared req.userId] }

/-- Sum of quantity × unitPrice over a request's items (the server-side total
the spec prescribes). -/
def itemSum (items : List OrderItemReq) : Rat :=
  items.foldl (fun acc it => acc + it.price * (it.quantity : Rat)) 0

/-- The rows staged by the item-insert loop when no insert fails. -/
def mkOrderItemRows (orderId nextItemId : Nat) : List OrderItemReq → List OrderItemRow
  | [] => []
  | item :: rest =>
    { id := nextItemId, orderId := orderId, productId := item.productId,
      name := item.name, quantity := item.quantity, price := item.price }
      :: mkOrderItemRows orderId (nextItemId + 1) rest

/-! ## Concrete fixtures used by counterexamples and witnesses -/

def emptyOrdersDB : OrdersDB :=
  { orders := [], orderItems := [], nextOrderId := 1, nextItemId := 1 }

def emptyPaymentsDB : PaymentsDB :=
  { payments := [], nextPaymentId := 1 }

def c6paymentCompleted : PaymentRow :=
  { id := 1, orderId := 2, userId := 5, amount := 20, currency := "USD", method := "card",
    status := "completed", transactionId := "t1", paymentGateway := "stripe_simulator",
    cardLast4 := "4242", errorMessage := "" }

def c6pdb : PaymentsDB := { payments := [c6paymentCompleted], nextPaymentId := 2 }

def c9item : CartItem :=
  { userId := 5, productId := 7, quantity := 1, price := 10, name := "Widget", imageURL := "" }

def pendingOrderRow : OrderRow :=
  { id := 1, userId := 5, status := "pending", totalAmount := 20, shippingAddr := "a",
    paymentMethod := "card", paymentStatus := "pending" }

def c3db : OrdersDB :=
  { orders := [pendingOrderRow], orderItems := [], nextOrderId := 2, nextItemId := 1 }

/-- State of `pendingOrderRow` after the first of the two writes of
`updatePaymentStatus(completed)`: payment already completed, status still
pending. -/
def pendingOrderRowPaid : OrderRow := { pendingOrderRow with paymentStatus := "completed" }

/-- State of `pendingOrderRow` after both writes of `updatePaymentStatus(completed)`. -/
def pendingOrderRowPaidConfirmed : OrderRow := { pendingOrderRowPaid with status := "confirmed" }

def c4req : PaymentRequest :=
  { orderId := 1, userId := 5, amount := 20, currency := "USD", method := "card",
    cardNumber := none }

def c5req : OrderReq :=
  { userId := 5, totalAmount := 0, shippingAddr := "a", paymentMethod := "card", items := [] }

def c8req : PaymentRequest :=
  { orderId := 3, userId := 5, amount := 0, currency := "USD", method := "card",
    cardNumber := none }

def c1req : OrderReq :=
  { userId := 1, totalAmount := 999, shippingAddr := "addr", paymentMethod := "card",
    items := [{ productId := 7, name := "Widget", quantity := 2, price := 10 }] }

def c1preq : PaymentRequest :=
  { orderId := 1, userId := 1, amount := 999, currency := "USD", method := "card",
    cardNumber := none }

def c2cartLine : CartItem :=
  { userId := 5, productId := 7, quantity := 2, price := 10, name := "Widget", imageURL := "" }

def c2req : OrderReq :=
  { userId := 5, totalAmount := 20, shippingAddr := "a", paymentMethod := "card",
    items := [{ productId := 7, name := "Widget", quantity := 2, price := 10 }] }

def w0 : World :=
  { carts := [c2cartLine], orders := emptyOrdersDB, payments := emptyPaymentsDB }

/-- The response row the combined server reports for `c2req` against the empty
ledger (statuses overridden after commit). -/
def c10responseRow : OrderRow :=
  { id := 1, userId := 5, status := "confirmed", totalAmount := 20,
    shippingAddr := "a", paymentMethod := "card", paymentStatus := "completed" }

/-- The row the combined server actually stores for that same call. -/
def c10storedRow : OrderRow :=
  { c10responseRow with status := "pending", paymentStatus := "pending" }

/-! ## Helper lemmas (shared) -/

theorem insertOrderItemsTx_noFail (oid : Nat) :
    ∀ (items : List OrderItemReq) (nid idx : Nat),
      insertOrderItemsTx oid nid items (fun _ => false) idx
        = some (mkOrderItemRows oid nid items) := by
  intro items
  induction items with
  | nil => intro nid idx; rfl
  | cons item rest ih =>
    intro nid idx
    simp [insertOrderItemsTx, mkOrderItemRows, ih rest.length, ih (nid + 1) (idx + 1)]

theorem insertOrderItemsTx_sound (oid : Nat) (itf : Nat → Bool) :
    ∀ (items : List OrderItemReq) (nid idx : Nat) (rows : List OrderItemRow),
      insertOrderItemsTx oid nid items itf idx = some rows →
      rows.map (fun r => (r.productId, r.name, r.quantity, r.price))
          = items.map (fun it => (it.productId, it.name, it.quantity, it.price)) ∧
      ∀ r ∈ rows, r.orderId = oid := by
  intro items
  induction items with
  | nil =>
    intro nid idx rows h
    simp only [insertOrderItemsTx, Option.some.injEq] at h
    subst h
    simp
  | cons item rest ih =>
    intro nid idx rows h
    simp only [insertOrderItemsTx] at h
    by_cases hfail : itf idx
    · simp [hfail] at h
    · rw [if_neg hfail] at h
      cases hrec : insertOrderItemsTx oid (nid + 1) rest itf (idx + 1) with
      | none => rw [hrec] at h; exact absurd h (by simp)
      | some rs =>
        rw [hrec] at h
        simp only [Option.some.injEq] at h
        subst h
        obtain ⟨hmap, hoid⟩ := ih (nid + 1) (idx + 1) rs hrec
        constructor
        · simp [hmap]
        · intro r hr
          rcases List.mem_cons.mp hr with h1 | h2
          · subst h1; rfl
          · exact hoid r h2

theorem createOrderSvc_noFail (db : OrdersDB) (req : OrderReq) :
    createOrderSvc db req false (fun _ => false) =
      ({ orders := db.orders ++
            [{ id := db.nextOrderId, userId := req.userId, status := "pending",
               totalAmount := req.totalAmount, shippingAddr := req.shippingAddr,
               paymentMethod := req.paymentMethod, paymentStatus := "pending" }],
         orderItems := db.orderItems ++ mkOrderItemRows db.nextOrderId db.nextItemId req.items,
         nextOrderId := db.nextOrderId + 1,
         nextItemId := db.nextItemId + (mkOrderItemRows db.nextOrderId db.nextItemId req.items).length },
       HandlerResult.ok
         { id := db.nextOrderId, userId := req.userId, status := "pending",
           totalAmount := req.totalAmount, shippingAddr := req.shippingAddr,
           paymentMethod := req.paymentMethod, paymentStatus := "pending" }) := by
  simp [createOrderSvc, insertOrderItemsTx_noFail]

theorem updatePaymentStatusRun_completed (db : OrdersDB) (oid : Nat) :
    updatePaymentStatusRun db oid "completed"
      = setOrderStatus (setOrderPaymentStatus db oid "completed") oid "confirmed" := by
  simp [updatePaymentStatusRun, updatePaymentStatus, validPaymentStatuses, List.getLastD]

theorem updatePaymentStatusRun_failed (db : OrdersDB) (oid : Nat) :
    updatePaymentStatusRun db oid "failed" = setOrderPaymentStatus db oid "failed" := by
  simp [updatePaymentStatusRun, updatePaymentStatus, validPaymentStatuses, List.getLastD]

theorem filter_map_comm {α : Type} (f : α → α) (p : α → Bool)
    (h : ∀ a, p (f a) = p a) (l : List α) :
    (l.map f).filter p = (l.filter p).map f := by
  induction l with
  | nil => rfl
  | cons a rest ih =>
    by_cases hp : p a
    · simp [List.filter_cons, hp, h a, ih]
    · simp [List.filter_cons, hp, h a, ih]

/-! ## Claim C6 -/

/-- Claim C6: a `Refund(paymentId)` call whose target payment's status is not
"completed" fails with an explicit error and performs no writes — the payments
table and the order ledger are returned unchanged; since a refunded payment's
status is "refunded" ≠ "completed", a second refund of the same payment is
rejected the same way. -/
theorem c6_refund_nonCompleted_rejected (pdb : PaymentsDB) (odb : OrdersDB) (pid : Nat)
    (p : PaymentRow) (hfind : pdb.payments.find? (fun q => q.id == pid) = some p)
    (hst : p.status ≠ "completed") :
    refundPayment pdb odb pid =
      { payments := pdb, orders := odb,
        response := HandlerResult.httpError "Only completed payments can be refunded" } := by
  unfold refundPayment
  rw [hfind]
  have hb : (p.status != "completed") = true := by
    simpa [bne_iff_ne] using hst
  simp [hb]

/-- Witness for C6: a completed $20 payment is refunded once; the second
refund call on the same payment id is rejected with the conflict error and
leaves both stores exactly as they were after the first refund. -/
theorem c6_refund_witness :
    refundPayment (refundPayment c6pdb emptyOrdersDB 1).payments
        (refundPayment c6pdb emptyOrdersDB 1).orders 1 =
      { payments := (refundPayment c6pdb emptyOrdersDB 1).payments,
        orders := (refundPayment c6pdb emptyOrdersDB 1).orders,
        response := HandlerResult.httpError "Only completed payments can be refunded" } :=
  c6_refund_nonCompleted_rejected (refundPayment c6pdb emptyOrdersDB 1).payments
    (refundPayment c6pdb emptyOrdersDB 1).orders 1
    { c6paymentCompleted with status := "refunded" } (by decide) (by decide)

/-! ## Claim C7 -/

/-- Claim C7: `createOrder` of the order service inserts the header and all of
its items as one atomic unit — for every database, request and combination of
insert failures, either the handler reports an error and the database is
exactly as before (the transaction rolled back, no orphan header), or it
succeeds and the database gains the header plus one item row per request item
with matching fields, all keyed to the new order's id. -/
theorem c7_createOrder_atomic (db : OrdersDB) (req : OrderReq) (hf : Bool)
    (itf : Nat → Bool) :
    ((createOrderSvc db req hf itf).1 = db ∧
      ∃ msg, (createOrderSvc db req hf itf).2 = HandlerResult.httpError msg) ∨
    (∃ o, (createOrderSvc db req hf itf).2 = HandlerResult.ok o ∧
      o ∈ (createOrderSvc db req hf itf).1.orders ∧
      ((createOrderSvc db req hf itf).1.orderItems.drop db.orderItems.length).map
          (fun r => (r.productId, r.name, r.quantity, r.price))
        = req.items.map (fun it => (it.productId, it.name, it.quantity, it.price)) ∧
      ∀ r ∈ (createOrderSvc db req hf itf).1.orderItems.drop db.orderItems.length,
        r.orderId = o.id) := by
  by_cases hfc : hf
  · left
    subst hfc
    exact ⟨rfl, "Failed to create order", rfl⟩
  · have hfeq : hf = false := by simpa using hfc
    subst hfeq
    cases htx : insertOrderItemsTx db.nextOrderId db.nextItemId req.items itf 0 with
    | none =>
      left
      constructor
      · simp [createOrderSvc, htx]
      · exact ⟨"Failed to create order items", by simp [createOrderSvc, htx]⟩
    | some rows =>
      right
      obtain ⟨hmap, hoid⟩ := insertOrderItemsTx_sound db.nextOrderId itf req.items
        db.nextItemId 0 rows htx
      refine ⟨{ id := db.nextOrderId, userId := req.userId, status := "pending",
                totalAmount := req.totalAmount, shippingAddr := req.shippingAddr,
                paymentMethod := req.paymentMethod, paymentStatus := "pending" },
              ?_, ?_, ?_, ?_⟩
      · simp [createOrderSvc, htx]
      · simp [createOrderSvc, htx]
      · rw [show (createOrderSvc db req false itf).1.orderItems = db.orderItems ++ rows
            from by simp [createOrderSvc, htx]]
        rw [List.drop_left]
        exact hmap
      · rw [show (createOrderSvc db req false itf).1.orderItems = db.orderItems ++ rows
            from by simp [createOrderSvc, htx]]
        rw [List.drop_left]
        exact hoid

/-! ## Claim C9 -/

/-- Claim C9: when a cart line for (customerId, productId) already exists (the
database's UNIQUE(user_id, product_id) constraint guarantees there is exactly
one such line), `addToCart` increments that line's quantity by the requested
amount, leaves its stored price and name unchanged, and creates no duplicate
row: the row count is unchanged and the key still selects a single line. -/
theorem c9_addToCart_accumulates (db : List CartItem) (userId : Nat) (item old : CartItem)
    (h : db.filter (cartLineKey userId item.productId) = [old]) :
    (addToCart db userId item).filter (cartLineKey userId item.productId)
        = [{ old with quantity := old.quantity + item.quantity }] ∧
    (addToCart db userId item).length = db.length := by
  have hold : old ∈ db.filter (cartLineKey userId item.productId) := by
    rw [h]; exact List.mem_singleton.mpr rfl
  have hmem : old ∈ db := (List.mem_filter.mp hold).1
  have hkey : cartLineKey userId item.productId old = true := (List.mem_filter.mp hold).2
  have hany : db.any (cartLineKey userId item.productId) = true :=
    List.any_eq_true.mpr ⟨old, hmem, hkey⟩
  have hpres : ∀ l : CartItem,
      cartLineKey userId item.productId
        (if cartLineKey userId item.productId l then
          { l with quantity := l.quantity + item.quantity } else l)
      = cartLineKey userId item.productId l := by
    intro l
    by_cases hl : cartLineKey userId item.productId l
    · rw [if_pos hl]; rfl
    · rw [if_neg hl]
  constructor
  · rw [addToCart, if_pos hany,
      filter_map_comm _ _ hpres db, h]
    simp [hkey]
  · rw [addToCart, if_pos hany, List.length_map]

/-- Witness for C9: the spec's scenario — `AddItem(customer=5, product=7, qty=1)`
twice starting from an empty store yields a single cart line with quantity 2
and the original price and name. -/
theorem c9_addToCart_witness :
    (addToCart (addToCart [] 5 c9item) 5 c9item).filter (cartLineKey 5 7)
        = [{ c9item with userId := 5, quantity := 2 }] ∧
    (addToCart (addToCart [] 5 c9item) 5 c9item).length = 1 := by
  have h := c9_addToCart_accumulates (addToCart [] 5 c9item) 5 c9item
    { c9item with userId := 5 } (by decide)
  exact ⟨by simpa using h.1, by simpa using h.2⟩

/-! ## Claim C3 -/

/-- Counterexample to claim C3: on an order in status "pending",
`UpdatePaymentStatus(completed)` is NOT a single coupled update.  The handler
issues two separate autocommitted writes, and the state after the first write —
durably readable — has `paymentStatus = "completed"` together with
`status = "pending"`. -/
theorem c3_two_write_counterexample :
    updatePaymentStatus c3db 1 "completed" =
      HandlerResult.ok
        [{ c3db with orders := [pendingOrderRowPaid] },
         { c3db with orders := [pendingOrderRowPaidConfirmed] }] ∧
    (findOrder { c3db with orders := [pendingOrderRowPaid] } 1).map
      (fun o => (o.paymentStatus, o.status)) = some ("completed", "pending") := by
  decide

/-- Claim C3 as amended: `UpdatePaymentStatus(completed)` issues two separate
writes (payment_status first, then status), so an intermediate durably readable
state has paymentStatus=completed with status=pending; in the FINAL state after
the handler returns, every order row carrying the target id has
paymentStatus = "completed" and status = "confirmed". -/
theorem c3_final_state_coupled (db : OrdersDB) (oid : Nat) (o : OrderRow)
    (hmem : o ∈ (updatePaymentStatusRun db oid "completed").orders) (hid : o.id = oid) :
    o.paymentStatus = "completed" ∧ o.status = "confirmed" := by
  rw [updatePaymentStatusRun_completed] at hmem
  simp only [setOrderStatus, setOrderPaymentStatus] at hmem
  obtain ⟨b, hb, rfl⟩ := List.mem_map.mp hmem
  obtain ⟨a, ha, rfl⟩ := List.mem_map.mp hb
  by_cases hc : (a.id == oid)
  · rw [if_pos hc]
    have hc2 : (({ a with paymentStatus := "completed" } : OrderRow).id == oid) = true := hc
    rw [if_pos hc2]
    exact ⟨rfl, rfl⟩
  · rw [if_neg hc] at hid ⊢
    rw [if_neg hc] at hid ⊢
    exact absurd (Nat.beq_eq_true_eq a.id oid ▸ hid) (by simpa using hc)

/-- Witness for the amended C3: applying the final-state coupling to the
concrete pending order of `c3db`. -/
theorem c3_final_state_witness :
    pendingOrderRowPaidConfirmed.paymentStatus = "completed" ∧
    pendingOrderRowPaidConfirmed.status = "confirmed" :=
  c3_final_state_coupled c3db 1 pendingOrderRowPaidConfirmed (by decide) (by decide)

/-! ## Claim C4 -/

/-- Counterexample to claim C4: two charge attempts against order 1 that the
simulated gateway approves both insert a "completed" payments row — nothing
blocks the second attempt, and afterwards TWO rows for the order have
status = "completed". -/
theorem c4_double_charge_counterexample :
    completedPaymentCount
        (runCharges emptyPaymentsDB [(c4req, "t1", true), (c4req, "t2", true)]) 1 = 2 ∧
    (runCharges emptyPaymentsDB [(c4req, "t1", true), (c4req, "t2", true)]).payments.length
      = 2 := by
  decide

/-- One processPayment call adds one completed row for the order exactly when
the request targets that order and the gateway approves. -/
theorem completedPaymentCount_processPayment (db : PaymentsDB) (req : PaymentRequest)
    (t : String) (a : Bool) (oid : Nat) :
    completedPaymentCount (processPayment db req t a).db oid
      = completedPaymentCount db oid + (if req.orderId == oid && a then 1 else 0) := by
  cases a
  · simp [processPayment, completedPaymentCount, List.filter_append]
  · by_cases ho : (req.orderId == oid)
    · simp [processPayment, completedPaymentCount, List.filter_append, ho]
    · simp [processPayment, completedPaymentCount, List.filter_append, ho]

/-- Claim C4 as amended: `processPayment` performs no lookup of existing
payments and never blocks an attempt — every attempt inserts exactly one new
row, and after any sequence of attempts the number of "completed" rows for an
order equals what it was before plus the number of approved attempts that
targeted that order (which can exceed one). -/
theorem c4_no_charge_dedup (attempts : List (PaymentRequest × String × Bool))
    (oid : Nat) : ∀ db : PaymentsDB,
    completedPaymentCount (runCharges db attempts) oid
      = completedPaymentCount db oid
        + (attempts.filter (fun a => a.1.orderId == oid && a.2.2)).length ∧
    (runCharges db attempts).payments.length = db.payments.length + attempts.length := by
  induction attempts with
  | nil => intro db; simp [runCharges]
  | cons a0 rest ih =>
    intro db
    have hstep : runCharges db (a0 :: rest)
        = runCharges (processPayment db a0.1 a0.2.1 a0.2.2).db rest := rfl
    have hlen : (processPayment db a0.1 a0.2.1 a0.2.2).db.payments.length
        = db.payments.length + 1 := by simp [processPayment]
    obtain ⟨ih1, ih2⟩ := ih (processPayment db a0.1 a0.2.1 a0.2.2).db
    constructor
    · rw [hstep, ih1, completedPaymentCount_processPayment]
      by_cases hp : (a0.1.orderId == oid && a0.2.2)
      · simp [List.filter_cons, hp]
        omega
      · simp [List.filter_cons, hp]
    · rw [hstep, ih2, hlen, List.length_cons]
      omega

/-! ## Claim C5 -/

/-- Counterexample to claim C5: `createOrder` performs no non-emptiness check —
a request with an empty item list succeeds, producing an order header with
zero order_items rows, durably observable; no EmptyCartError exists. -/
theorem c5_empty_order_counterexample :
    (createOrderSvc emptyOrdersDB c5req false (fun _ => false)).2 =
      HandlerResult.ok
        { id := 1, userId := 5, status := "pending", totalAmount := 0,
          shippingAddr := "a", paymentMethod := "card", paymentStatus := "pending" } ∧
    orderItemsOf (createOrderSvc emptyOrdersDB c5req false (fun _ => false)).1 1 = [] := by
  decide

/-- Claim C5 as amended: `createOrder` does not validate the item list — for
every database and every request whose item list is empty, the handler (when
the header insert succeeds) creates the order header and adds no item rows, so
a zero-item order is observable. -/
theorem c5_no_empty_validation (db : OrdersDB) (req : OrderReq) (itf : Nat → Bool)
    (h : req.items = []) :
    (createOrderSvc db req false itf).2 =
      HandlerResult.ok
        { id := db.nextOrderId, userId := req.userId, status := "pending",
          totalAmount := req.totalAmount, shippingAddr := req.shippingAddr,
          paymentMethod := req.paymentMethod, paymentStatus := "pending" } ∧
    (createOrderSvc db req false itf).1.orderItems = db.orderItems := by
  constructor
  · simp [createOrderSvc, h, insertOrderItemsTx]
  · simp [createOrderSvc, h, insertOrderItemsTx]

/-- Witness for the amended C5: the concrete empty-items request `c5req`
against the empty ledger. -/
theorem c5_no_empty_validation_witness :
    (createOrderSvc emptyOrdersDB c5req false (fun _ => true)).2 =
      HandlerResult.ok
        { id := emptyOrdersDB.nextOrderId, userId := c5req.userId, status := "pending",
          totalAmount := c5req.totalAmount, shippingAddr := c5req.shippingAddr,
          paymentMethod := c5req.paymentMethod, paymentStatus := "pending" } ∧
    (createOrderSvc emptyOrdersDB c5req false (fun _ => true)).1.orderItems
      = emptyOrdersDB.orderItems :=
  c5_no_empty_validation emptyOrdersDB c5req (fun _ => true) (by decide)

/-! ## Claim C8 -/

/-- Counterexample to claim C8: a charge request with amount = 0 (≤ 0) is NOT
rejected — `processPayment` inserts a payments row for it and still pushes a
payment-status update for the order. -/
theorem c8_nonpositive_amount_counterexample :
    c8req.amount ≤ 0 ∧
    (processPayment emptyPaymentsDB c8req "t1" true).db.payments =
      [{ id := 1, orderId := 3, userId := 5, amount := 0, currency := "USD",
         method := "card", status := "completed", transactionId := "t1",
         paymentGateway := "stripe_simulator", cardLast4 := "", errorMessage := "" }] ∧
    (processPayment emptyPaymentsDB c8req "t1" true).orderPatch = "completed" := by
  decide

/-- Claim C8 as amended: `processPayment` has no amount validation — every
request, including one with amount ≤ 0, inserts exactly one new payments row
carrying the request's amount verbatim and issues a payment-status update
("completed" or "failed") to the order service. -/
theorem c8_no_amount_validation (db : PaymentsDB) (req : PaymentRequest) (t : String)
    (a : Bool) (h : req.amount ≤ 0) :
    (processPayment db req t a).db.payments.length = db.payments.length + 1 ∧
    (processPayment db req t a).payment.amount = req.amount ∧
    ((processPayment db req t a).orderPatch = "completed" ∨
      (processPayment db req t a).orderPatch = "failed") := by
  refine ⟨by simp [processPayment], rfl, ?_⟩
  cases a
  · right; rfl
  · left; rfl

/-- Witness for the amended C8: the concrete zero-amount request `c8req`. -/
theorem c8_no_amount_validation_witness :
    (processPayment emptyPaymentsDB c8req "t1" true).db.payments.length
        = emptyPaymentsDB.payments.length + 1 ∧
    (processPayment emptyPaymentsDB c8req "t1" true).payment.amount = c8req.amount ∧
    ((processPayment emptyPaymentsDB c8req "t1" true).orderPatch = "completed" ∨
      (processPayment emptyPaymentsDB c8req "t1" true).orderPatch = "failed") :=
  c8_no_amount_validation emptyPaymentsDB c8req "t1" true (by decide)

/-! ## Claim C1 -/

/-- Counterexample to claim C1: the services trust the client-supplied total.
`c1req` carries totalAmount = 999 while its line items sum to 20; the order
service stores 999 as the order's totalAmount, and a charge request for 999 is
charged at 999 — nothing recomputes the total server-side. -/
theorem c1_client_total_counterexample :
    itemSum c1req.items = 20 ∧ c1req.totalAmount = 999 ∧
    (createOrderSvc emptyOrdersDB c1req false (fun _ => false)).2 =
      HandlerResult.ok
        { id := 1, userId := 1, status := "pending", totalAmount := 999,
          shippingAddr := "addr", paymentMethod := "card", paymentStatus := "pending" } ∧
    (processPayment emptyPaymentsDB c1preq "t1" true).payment.amount = 999 := by
  refine ⟨?_, by decide, by decide, by decide⟩
  show itemSum c1req.items = (20 : Rat)
  simp [itemSum, c1req]
  norm_num

/-- Claim C1 as amended: the charge amount and the order's totalAmount are
whatever the client request carries.  The stock frontend computes the total
from the fetched cart lines (so, driven by `handleCheckout`, the single Charge
of a checkout is for `cartTotalPrice` of the customer's stored cart lines),
but the order service stores any request's totalAmount verbatim and the
payment service charges any request's amount verbatim, with no server-side
recomputation or validation. -/
theorem c1_charge_amount_flow (w : World) (userId : Nat) (addr card txn : String)
    (approves : Bool) :
    (handleCheckout w userId addr card txn approves false (fun _ => false)).events.filter
        Event.isCharge
      = [Event.charged w.orders.nextOrderId (cartTotalPrice (userCart w.carts userId))
          (if approves then "completed" else "failed")] ∧
    (∀ db req hf itf o, (createOrderSvc db req hf itf).2 = HandlerResult.ok o →
        o.totalAmount = req.totalAmount) ∧
    (∀ pdb preq t a, (processPayment pdb preq t a).payment.amount = preq.amount) := by
  refine ⟨?_, ?_, ?_⟩
  · have hco := createOrderSvc_noFail w.orders
      (checkoutOrderReq userId (userCart w.carts userId) addr)
    cases approves
    · simp only [handleCheckout, hco]
      simp [processPayment, Event.isCharge, checkoutOrderReq]
    · simp only [handleCheckout, hco]
      simp [processPayment, Event.isCharge, checkoutOrderReq]
  · intro db req hf itf o h
    cases hf
    · cases htx : insertOrderItemsTx db.nextOrderId db.nextItemId req.items itf 0 with
      | none => simp [createOrderSvc, htx] at h
      | some rows =>
        simp [createOrderSvc, htx] at h
        rw [← h]
    · simp [createOrderSvc] at h
  · intro pdb preq t a
    rfl

/-- Witness for the amended C1: a concrete approved checkout over the cart
`[c2cartLine]` charges exactly the fetched cart's total. -/
theorem c1_charge_amount_witness :
    (handleCheckout w0 5 "a" "4242" "t1" true false (fun _ => false)).events.filter
        Event.isCharge
      = [Event.charged w0.orders.nextOrderId (cartTotalPrice (userCart w0.carts 5))
          (if true then "completed" else "failed")] :=
  (c1_charge_amount_flow w0 5 "a" "4242" "t1" true).1

/-! ## Claim C2 -/

/-- Counterexample to claim C2: the combined single-binary server's
`createOrder` is a checkout path that clears the customer's cart with NO
charge at all — for the concrete cart `[c2cartLine]` the handler succeeds,
the cart ends empty, yet the flow contains no Charge call (so no Charge
returned "completed"), refuting "ClearCart is invoked iff the triggering
Charge returned status=completed". -/
theorem c2_unconditional_clear_counterexample :
    (createOrderCombined [c2cartLine] emptyOrdersDB c2req false (fun _ => false)).events.filter
        Event.isCharge = [] ∧
    Event.cartCleared 5
      ∈ (createOrderCombined [c2cartLine] emptyOrdersDB c2req false (fun _ => false)).events ∧
    (createOrderCombined [c2cartLine] emptyOrdersDB c2req false (fun _ => false)).carts = [] ∧
    (createOrderCombined [c2cartLine] emptyOrdersDB c2req false (fun _ => false)).response =
      HandlerResult.ok
        { id := 1, userId := 5, status := "confirmed", totalAmount := 20,
          shippingAddr := "a", paymentMethod := "card", paymentStatus := "completed" } := by
  decide

/-- Claim C2 as amended: in the frontend checkout flow against the
microservices (`handleCheckout`), ClearCart is invoked iff the Charge of that
checkout returned status "completed", and a declined charge leaves the cart
rows exactly unchanged; the combined single-binary server's `createOrder`,
however, clears the cart unconditionally during order creation with no charge
at all. -/
theorem c2_cart_clear_gating (w : World) (userId : Nat) (addr card txn : String)
    (approves hf : Bool) (itf : Nat → Bool) :
    ((Event.cartCleared userId
        ∈ (handleCheckout w userId addr card txn approves hf itf).events) ↔
      (∃ oid amt, Event.charged oid amt "completed"
          ∈ (handleCheckout w userId addr card txn approves hf itf).events)) ∧
    (approves = false →
      (handleCheckout w userId addr card txn approves hf itf).world.carts = w.carts) := by
  rcases hres : createOrderSvc w.orders
      (checkoutOrderReq userId (userCart w.carts userId) addr) hf itf with ⟨odb, r⟩
  cases r with
  | httpError msg =>
    constructor
    · simp only [handleCheckout, hres]
      simp
    · intro _
      simp only [handleCheckout, hres]
  | ok order =>
    cases approves
    · constructor
      · simp only [handleCheckout, hres]
        simp [processPayment, Event.isCharge]
      · intro _
        simp only [handleCheckout, hres]
        simp [processPayment]
    · constructor
      · simp only [handleCheckout, hres]
        simp [processPayment, Event.isCharge]
      · intro hfalse
        exact absurd hfalse (by simp)

/-- Witness for the amended C2: a concrete declined checkout over the cart
`[c2cartLine]` leaves the stored cart rows unchanged. -/
theorem c2_cart_clear_witness :
    (handleCheckout w0 5 "a" "4242" "t1" false false (fun _ => false)).world.carts
      = w0.carts :=
  (c2_cart_clear_gating w0 5 "a" "4242" "t1" false false (fun _ => false)).2 rfl

/-! ## Claim C10 -/

/-- Unfolding of a successful `createOrderCombined` call. -/
theorem createOrderCombined_ok (carts : List CartItem) (odb : OrdersDB) (req : OrderReq)
    (itf : Nat → Bool) (rows : List OrderItemRow)
    (htx : insertOrderItemsTx odb.nextOrderId odb.nextItemId req.items itf 0 = some rows) :
    createOrderCombined carts odb req false itf =
      { carts := clearCart carts req.userId,
        orders :=
          { orders := odb.orders ++
              [{ id := odb.nextOrderId, userId := req.userId, status := "pending",
                 totalAmount := req.totalAmount, shippingAddr := req.shippingAddr,
                 paymentMethod := req.paymentMethod, paymentStatus := "pending" }],
            orderItems := odb.orderItems ++ rows,
            nextOrderId := odb.nextOrderId + 1,
            nextItemId := odb.nextItemId + rows.length },
        response := HandlerResult.ok
          { id := odb.nextOrderId, userId := req.userId, status := "confirmed",
            totalAmount := req.totalAmount, shippingAddr := req.shippingAddr,
            paymentMethod := req.paymentMethod, paymentStatus := "completed" },
        events := [Event.orderCreated odb.nextOrderId req.totalAmount,
                   Event.cartCleared req.userId] } := by
  simp [createOrderCombined, htx]

/-- Claim C10: for every successful call of the combined single-binary
server's `createOrder`, the customer's cart is deleted inside the
order-creation transaction, no Charge call occurs anywhere in the flow, the
response reports the order as status "confirmed" / paymentStatus "completed",
yet the stored row is exactly that order with status "pending" /
paymentStatus "pending" — the response diverges from the persisted state. -/
theorem c10_combined_divergence (carts : List CartItem) (odb : OrdersDB) (req : OrderReq)
    (hf : Bool) (itf : Nat → Bool) (o : OrderRow)
    (h : (createOrderCombined carts odb req hf itf).response = HandlerResult.ok o) :
    (createOrderCombined carts odb req hf itf).carts = clearCart carts req.userId ∧
    o.status = "confirmed" ∧ o.paymentStatus = "completed" ∧
    { o with status := "pending", paymentStatus := "pending" }
        ∈ (createOrderCombined carts odb req hf itf).orders.orders ∧
    (createOrderCombined carts odb req hf itf).events.filter Event.isCharge = [] := by
  cases hf
  · cases htx : insertOrderItemsTx odb.nextOrderId odb.nextItemId req.items itf 0 with
    | none => simp [createOrderCombined, htx] at h
    | some rows =>
      rw [createOrderCombined_ok carts odb req itf rows htx] at h ⊢
      injection h with h2
      subst h2
      refine ⟨rfl, rfl, rfl, ?_, rfl⟩
      exact List.mem_append_right _ (List.mem_singleton.mpr rfl)
  · simp [createOrderCombined] at h

/-- Witness for C10: the concrete successful call over cart `[c2cartLine]`
and request `c2req`. -/
theorem c10_combined_divergence_witness :
    (createOrderCombined [c2cartLine] emptyOrdersDB c2req false (fun _ => false)).carts
        = clearCart [c2cartLine] c2req.userId ∧
    c10responseRow.status = "confirmed" ∧
    c10responseRow.paymentStatus = "completed" ∧
    { c10responseRow with status := "pending", paymentStatus := "pending" }
      ∈ (createOrderCombined [c2cartLine] emptyOrdersDB c2req false
          (fun _ => false)).orders.orders ∧
    (createOrderCombined [c2cartLine] emptyOrdersDB c2req false (fun _ => false)).events.filter
        Event.isCharge = [] :=
  c10_combined_divergence [c2cartLine] emptyOrdersDB c2req false (fun _ => false)
    c10responseRow (by decide)
